import Mathlib

/-!
# Verification of the DataAnalystPro request orchestrator (`src/main.py`)

This file gives a shallow embedding of the `analyze` request handler of
`main.py` and of its helper `last_n_words`, and proves the specification
claims about them.

External collaborators (`run_python_code` from `task_engine`,
`parse_question_with_llm` / `answer_with_data` from `gemini`, the form
parser and the filesystem) are modelled as an oracle environment `Env`:
each external call site reads its outcome from the environment.  Calls
that Python may observe as raised exceptions are modelled with
`Except String`; per the Sandboxed Executor contract (spec §4.2,
`run_python_code` is not part of `src/`), the executor never raises and
is modelled as total, returning an `ExecOutcome`.

The handler is embedded as a function `analyze : Env → HResult × List Ev`
returning the HTTP-level result together with the ordered trace of
observable side effects (files written, executor invocations, collaborator
calls, the read of `result.json`).
-/

namespace DataAnalystPro

/-! ## Tokenizer: embedding of `last_n_words` (main.py lines 39–42)

Python's `str.split()` splits on runs of whitespace and never yields
empty tokens; `' '.join(words[-n:])` rejoins the trailing `n` tokens
with single spaces.  Strings are modelled through their character
lists; `Char.isWhitespace` models Python's whitespace class. -/

/-- The maximal non-whitespace runs of a character list: the embedding of
Python `s.split()`. -/
def words (l : List Char) : List (List Char) :=
  match l with
  | [] => []
  | c :: cs =>
    if c.isWhitespace then words cs
    else
      (c :: cs).takeWhile (fun d => !d.isWhitespace)
        :: words ((c :: cs).dropWhile (fun d => !d.isWhitespace))
termination_by l.length
decreasing_by
  · simp only [List.length_cons]; omega
  · simp only [List.dropWhile_cons]
    have hc : (fun d => !d.isWhitespace) c = true := by
      simp [*]
    rw [if_pos hc]
    have := (List.dropWhile_sublist (l := cs) (fun d => !d.isWhitespace)).length_le
    simp only [List.length_cons]
    omega

/-- Joining a list of words with single spaces: the embedding of
Python `' '.join(ws)`. -/
def unwords : List (List Char) → List Char
  | [] => []
  | [w] => w
  | w :: ws => w ++ ' ' :: unwords ws

/-- Embedding of `last_n_words(s, n)` (main.py lines 39–42): split `s` on
whitespace, keep the trailing `n` tokens, rejoin with single spaces. -/
def last_n_words (s : String) (n : Nat) : String :=
  let ws := words s.data
  String.mk (unwords (ws.drop (ws.length - n)))

/-! ## Data model -/

/-- The dict returned by `run_python_code`: a status code and the captured
combined output text. -/
structure ExecOutcome where
  code : Int
  output : String
deriving DecidableEq, Repr

/-- The dict returned by `parse_question_with_llm`:
`{code, libraries, questions}`. -/
structure ParseResp where
  code : String
  libraries : List String
  questions : String
deriving DecidableEq, Repr

/-- The dict returned by `answer_with_data`: `{code, libraries}`. -/
structure AnswerResp where
  code : String
  libraries : List String
deriving DecidableEq, Repr

/-- Response bodies produced by the handler's `JSONResponse` calls. -/
inductive Body where
  /-- `{"message": m}` -/
  | errMsg (message : String)
  /-- `{"message": m, "details": d}` -/
  | errDetails (message : String) (details : String)
  /-- the parsed-then-reserialized content of `result.json` -/
  | payload (data : String)
deriving DecidableEq, Repr

/-- What leaves the handler: either an HTTP response, or an exception that
propagates out of the handler unhandled. -/
inductive HResult where
  | response (status : Nat) (body : Body)
  | unhandled (e : String)
deriving DecidableEq, Repr

/-- Observable side effects of one request, in order. -/
inductive Ev where
  /-- `os.makedirs(request_folder)` (line 48) -/
  | mkdirFolder
  /-- `logging.FileHandler(log_path)` creates `app.log` in the folder (line 55) -/
  | logFileCreated
  /-- a form field saved as a file under the folder (lines 71–74) -/
  | fileWritten (name : String)
  /-- call to `parse_question_with_llm` (line 87) -/
  | parseCall
  /-- scrape-phase `run_python_code` (line 99) -/
  | scrapeExecCall
  /-- first call to `answer_with_data` (line 114) -/
  | answerFirstCall
  /-- answer-phase `run_python_code`, attempt `k` (0-based) (line 128) -/
  | answerExecCall (attempt : Nat)
  /-- repair call to `answer_with_data` after failed attempt `k`, carrying
  the diagnostic excerpt `msg` (lines 138–144) -/
  | repairCall (attempt : Nat) (msg : String)
  /-- `open(result_path)` / `json.load` (lines 156–157) -/
  | resultRead
deriving DecidableEq, Repr

/-- Oracle environment: one request's external world.  Fields are listed in
the order the handler consults them. -/
structure Env where
  /-- the request folder path (`request_folder`) -/
  folder : String
  /-- outcome of `await request.form()`: field names with their contents
  (contents modelled post-decoding), or a raised exception -/
  form : Except String (List (String × String))
  /-- outcome of writing one field's content to disk, by field name -/
  save : String → Except String Unit
  /-- outcome of `parse_question_with_llm` -/
  parseLLM : Except String ParseResp
  /-- outcome of the scrape-phase `run_python_code` (total: the executor
  normalizes internal faults into failure outcomes, spec §4.2) -/
  scrapeExec : ExecOutcome
  /-- `os.path.exists(metadata_path)` -/
  metadataExists : Bool
  /-- outcome of the first `answer_with_data` call -/
  answerFirst : Except String AnswerResp
  /-- outcome of the answer-phase `run_python_code` on attempt `k` (total) -/
  answerExec : Nat → ExecOutcome
  /-- outcome of the repair `answer_with_data` call after failed attempt `k`,
  given the `retry_message` excerpt -/
  repair : Nat → String → Except String AnswerResp
  /-- reading and parsing `result.json`: `.ok d` is the parsed content
  (reserialized), `.error e` a missing/unparsable file -/
  readResult : Except String String

/-- `max_attempts = 3` (main.py line 125). -/
def MAX_ATTEMPTS : Nat := 3

/-- The guard `execution_result["code"] == 0` (line 101): the scrape phase
treats status 0 as failure, anything else as success. -/
def scrapeFailed (r : ExecOutcome) : Bool :=
  r.code = 0

/-- The guard `final_result["code"] == 1` (line 130): the answer loop treats
status 1 as success, anything else as failure. -/
def answerSucceeded (r : ExecOutcome) : Bool :=
  r.code = 1

/-- `"questions.txt" in field_name` (line 77): substring containment. -/
def containsQuestionsTxt (fieldName : String) : Bool :=
  decide ("questions.txt".data <:+: fieldName.data)

/-- Python truthiness of `question_text` at line 80: `None` and `""` are
falsy. -/
def questionMissing : Option String → Bool
  | none => true
  | some s => s.isEmpty

/-- The file-saving loop (lines 69–78): each field is written to disk, then
`question_text` is set from any field whose name contains `questions.txt`
(the last such field wins).  A raised write error aborts the loop and
propagates.  Returns the final `question_text` (or the exception) and the
trace of files written. -/
def saveLoop (env : Env) : List (String × String) → Option String →
    Except String (Option String) × List Ev
  | [], qt => (Except.ok qt, [])
  | (name, content) :: rest, qt =>
    match env.save name with
    | Except.error e => (Except.error e, [])
    | Except.ok _ =>
      let qt2 := if containsQuestionsTxt name then some content else qt
      let next := saveLoop env rest qt2
      (next.1, Ev.fileWritten name :: next.2)

/-- Result of the answer-phase retry loop (lines 124–152). -/
inductive LoopResult where
  /-- attempt `k` succeeded (`break` at line 132); also the (unreachable
  from attempt 0) natural fall-through of the `for` -/
  | success (attempt : Nat)
  /-- the repair `answer_with_data` call raised (return at line 148) -/
  | repairError (e : String)
  /-- failure on the final attempt (return at line 151) -/
  | exhausted (lastOutput : String)
deriving DecidableEq, Repr

/-- The body of `for attempt in range(max_attempts)` (lines 126–152),
iterating over the list of attempt indices: run the current code; on
status 1 break with success; otherwise, before the last attempt, compute
the `last_n_words` excerpt and ask for a repair (a raised repair error is
returned), else report exhaustion with the raw output. -/
def answerLoopGo (env : Env) : List Nat → LoopResult × List Ev
  | [] => (LoopResult.success 0, [])
  | attempt :: rest =>
    if answerSucceeded (env.answerExec attempt) then
      (LoopResult.success attempt, [Ev.answerExecCall attempt])
    else if attempt < MAX_ATTEMPTS - 1 then
      match env.repair attempt (last_n_words (env.answerExec attempt).output 100) with
      | Except.error e =>
        (LoopResult.repairError e,
          [Ev.answerExecCall attempt,
            Ev.repairCall attempt (last_n_words (env.answerExec attempt).output 100)])
      | Except.ok _ =>
        ((answerLoopGo env rest).1,
          Ev.answerExecCall attempt
            :: Ev.repairCall attempt (last_n_words (env.answerExec attempt).output 100)
            :: (answerLoopGo env rest).2)
    else
      (LoopResult.exhausted (env.answerExec attempt).output, [Ev.answerExecCall attempt])

/-- The answer-phase retry loop: `for attempt in range(max_attempts)`. -/
def answerLoop (env : Env) : LoopResult × List Ev :=
  answerLoopGo env (List.range MAX_ATTEMPTS)

/-- The tail of the handler from the retry loop on (lines 124–162): run the
loop, then — only when it reported success — read `result.json` and respond.
`pre` is the side-effect trace accumulated before the loop. -/
def afterLoop (env : Env) (pre : List Ev) : HResult × List Ev :=
  match (answerLoop env).1 with
  | LoopResult.repairError e =>
    (HResult.response 500 (Body.errDetails "LLM could not fix the code." e),
      pre ++ (answerLoop env).2)
  | LoopResult.exhausted out =>
    (HResult.response 500
      (Body.errDetails "Failed to execute final answer code after retries." out),
      pre ++ (answerLoop env).2)
  | LoopResult.success _ =>
    match env.readResult with
    | Except.ok data =>
      (HResult.response 200 (Body.payload data),
        pre ++ (answerLoop env).2 ++ [Ev.resultRead])
    | Except.error e =>
      (HResult.response 500 (Body.errDetails "Could not read result file." e),
        pre ++ (answerLoop env).2 ++ [Ev.resultRead])

/-- Embedding of the `analyze` handler (main.py lines 44–162), returning the
handler-level result and the ordered side-effect trace. -/
def analyze (env : Env) : HResult × List Ev :=
  match env.form with
  | Except.error e => (HResult.unhandled e, [Ev.mkdirFolder, Ev.logFileCreated])
  | Except.ok fields =>
    match (saveLoop env fields none).1 with
    | Except.error e =>
      (HResult.unhandled e,
        [Ev.mkdirFolder, Ev.logFileCreated] ++ (saveLoop env fields none).2)
    | Except.ok qt =>
      if questionMissing qt then
        (HResult.response 400 (Body.errMsg "questions.txt is a required field."),
          [Ev.mkdirFolder, Ev.logFileCreated] ++ (saveLoop env fields none).2)
      else
        match env.parseLLM with
        | Except.error e =>
          (HResult.response 500 (Body.errMsg ("LLM Error: " ++ e)),
            [Ev.mkdirFolder, Ev.logFileCreated] ++ (saveLoop env fields none).2
              ++ [Ev.parseCall])
        | Except.ok _pr =>
          if scrapeFailed env.scrapeExec then
            (HResult.response 500
              (Body.errDetails "Failed to execute data scraping code."
                env.scrapeExec.output),
              [Ev.mkdirFolder, Ev.logFileCreated] ++ (saveLoop env fields none).2
                ++ [Ev.parseCall, Ev.scrapeExecCall])
          else if !env.metadataExists then
            (HResult.response 500
              (Body.errMsg ("Scraping code executed successfully, but failed to create metadata.txt at "
                ++ env.folder ++ "/metadata.txt.")),
              [Ev.mkdirFolder, Ev.logFileCreated] ++ (saveLoop env fields none).2
                ++ [Ev.parseCall, Ev.scrapeExecCall])
          else
            match env.answerFirst with
            | Except.error e =>
              (HResult.response 500
                (Body.errMsg ("LLM Error during answer generation: " ++ e)),
                [Ev.mkdirFolder, Ev.logFileCreated] ++ (saveLoop env fields none).2
                  ++ [Ev.parseCall, Ev.scrapeExecCall, Ev.answerFirstCall])
            | Except.ok _ar =>
              afterLoop env
                ([Ev.mkdirFolder, Ev.logFileCreated] ++ (saveLoop env fields none).2
                  ++ [Ev.parseCall, Ev.scrapeExecCall, Ev.answerFirstCall])

/-- `true` exactly on answer-phase executor invocation events. -/
def Ev.isAnswerExec : Ev → Bool
  | Ev.answerExecCall _ => true
  | _ => false

/-- `true` exactly on repair-call events. -/
def Ev.isRepair : Ev → Bool
  | Ev.repairCall _ _ => true
  | _ => false

/-- Number of answer-phase executor invocations in a trace. -/
def execCount (evs : List Ev) : Nat :=
  evs.countP Ev.isAnswerExec

/-- Number of scrape-phase executor invocations in a trace. -/
def scrapeCount (evs : List Ev) : Nat :=
  evs.countP fun e => decide (e = Ev.scrapeExecCall)

/-- Number of `result.json` reads in a trace. -/
def readCount (evs : List Ev) : Nat :=
  evs.countP fun e => decide (e = Ev.resultRead)

/-- The `retry_message` excerpt computed after a failed attempt `k`
(line 138). -/
def retryMsg (env : Env) (k : Nat) : String :=
  last_n_words (env.answerExec k).output 100

/-- A well-formed token: nonempty and whitespace-free.  Python's `split()`
produces exactly such tokens. -/
def WfWord (w : List Char) : Prop :=
  w ≠ [] ∧ ∀ c ∈ w, c.isWhitespace = false

/-- Events that can occur before the retry loop. -/
def PreEv (e : Ev) : Prop :=
  e = Ev.mkdirFolder ∨ e = Ev.logFileCreated ∨ (∃ n, e = Ev.fileWritten n) ∨
    e = Ev.parseCall ∨ e = Ev.scrapeExecCall ∨ e = Ev.answerFirstCall

/-! ## Concrete environments used as witnesses -/

/-- A request whose only form field is a data file: no field name contains
`questions.txt`. -/
def envNoQuestion : Env where
  folder := "uploads/req"
  form := Except.ok [("data.csv", "a,b\n1,2")]
  save := fun _ => Except.ok ()
  parseLLM := Except.ok ⟨"print(1)", [], "Q?"⟩
  scrapeExec := ⟨1, "scrape ok"⟩
  metadataExists := true
  answerFirst := Except.ok ⟨"print(2)", []⟩
  answerExec := fun _ => ⟨1, "answer ok"⟩
  repair := fun _ _ => Except.ok ⟨"print(3)", []⟩
  readResult := Except.ok "\x7b\"answer\": 4\x7d"

/-- Like `envNoQuestion` but form parsing raises. -/
def envFormRaises : Env :=
  { envNoQuestion with form := Except.error "connection reset" }

/-- A fully successful request carrying a `questions.txt` field. -/
def envBase : Env :=
  { envNoQuestion with form := Except.ok [("questions.txt", "What is 2+2?")] }

/-- Scrape execution reports status 0 (failure). -/
def envScrapeFail : Env :=
  { envBase with scrapeExec := ⟨0, "Traceback: boom"⟩ }

/-- Scrape reports success but `metadata.txt` was never written. -/
def envNoMetadata : Env :=
  { envBase with metadataExists := false }

/-- Answer attempt 0 fails and the repair call itself raises. -/
def envRepairRaises : Env :=
  { envBase with
      answerExec := fun _ => ⟨0, "ZeroDivisionError: division by zero"⟩,
      repair := fun _ _ => Except.error "rate limited" }

/-- Every answer attempt fails; both repair calls succeed. -/
def envAllFail : Env :=
  { envBase with answerExec := fun k => ⟨0, "err attempt " ++ toString k⟩ }

/-- Attempt 0 fails, attempt 1 succeeds. -/
def envSecondTry : Env :=
  { envBase with
      answerExec := fun k => if k = 0 then ⟨0, "boom"⟩ else ⟨1, "good"⟩ }

/-- Successful loop but `result.json` is missing/unparsable. -/
def envReadFail : Env :=
  { envBase with readResult := Except.error "No such file" }

/-! ## Lemmas about the tokenizer -/

lemma words_wf (l : List Char) : ∀ w ∈ words l, WfWord w := by
  induction l using words.induct with
  | case1 => simp [words]
  | case2 c cs hc ih =>
    rw [words, if_pos hc]
    exact ih
  | case3 c cs hc ih =>
    rw [words, if_neg hc]
    intro w hw
    rcases List.mem_cons.mp hw with h | h
    · subst h
      constructor
      · simp [List.takeWhile_cons, hc]
      · intro d hd
        have := List.mem_takeWhile_imp hd
        simpa using this
    · exact ih w h

lemma words_cons_ws (c : Char) (cs : List Char) (hc : c.isWhitespace = true) :
    words (c :: cs) = words cs := by
  rw [words, if_pos hc]

lemma words_wf_append (w rest : List Char) (hw : WfWord w) :
    words (w ++ ' ' :: rest) = w :: words rest := by
  obtain ⟨hne, hall⟩ := hw
  match w, hne with
  | c :: w', _ =>
    have hc : c.isWhitespace = false := hall c (by simp)
    have hpos : ∀ d ∈ c :: w', (fun d => !d.isWhitespace) d = true := by
      intro d hd; simp [hall d hd]
    rw [List.cons_append, words, if_neg (by simp [hc])]
    have htake : ((c :: w') ++ ' ' :: rest).takeWhile (fun d => !d.isWhitespace)
        = c :: w' := by
      rw [List.takeWhile_append_of_pos hpos]
      simp
    have hdrop : ((c :: w') ++ ' ' :: rest).dropWhile (fun d => !d.isWhitespace)
        = ' ' :: rest := by
      rw [List.dropWhile_append_of_pos hpos]
      simp
    rw [← List.cons_append, htake, hdrop, words_cons_ws _ _ (by simp)]

/-- Splitting is a left inverse of joining on well-formed tokens. -/
lemma words_unwords (ws : List (List Char)) (h : ∀ w ∈ ws, WfWord w) :
    words (unwords ws) = ws := by
  induction ws with
  | nil => simp [unwords, words]
  | cons w ws ih =>
    match ws with
    | [] =>
      obtain ⟨hne, hall⟩ := h w (by simp)
      match w, hne with
      | c :: w', _ =>
        rw [unwords, words, if_neg (by simp [hall c (by simp)])]
        have hpos : ∀ d ∈ c :: w', (fun d => !d.isWhitespace) d = true := by
          intro d hd; simp [hall d hd]
        rw [List.takeWhile_eq_self_iff.mpr hpos,
          List.dropWhile_eq_nil_iff.mpr hpos, words]
    | x :: ws' =>
      rw [show unwords (w :: x :: ws') = w ++ ' ' :: unwords (x :: ws') from rfl]
      rw [words_wf_append w _ (h w (by simp))]
      rw [ih (fun v hv => h v (by simp [hv]))]

/-- Tokenizing the excerpt recovers exactly the trailing tokens of the
original: `last_n_words` keeps the last `n` whitespace-delimited tokens. -/
lemma words_last_n_words (s : String) (n : Nat) :
    words (last_n_words s n).data
      = (words s.data).drop ((words s.data).length - n) := by
  have : (last_n_words s n).data
      = unwords ((words s.data).drop ((words s.data).length - n)) := rfl
  rw [this]
  exact words_unwords _
    (fun w hw => words_wf s.data w (List.mem_of_mem_drop hw))

lemma words_last_n_words_length (s : String) (n : Nat) :
    (words (last_n_words s n).data).length = min n (words s.data).length := by
  rw [words_last_n_words, List.length_drop]
  omega

lemma words_last_n_words_suffix (s : String) (n : Nat) :
    words (last_n_words s n).data <:+ words s.data := by
  rw [words_last_n_words]
  exact List.drop_suffix _ _

/-! ## Lemmas about the retry loop -/

lemma answerSucceeded_false_iff (r : ExecOutcome) :
    answerSucceeded r = false ↔ r.code ≠ 1 := by
  simp [answerSucceeded]

lemma range_max_attempts : List.range MAX_ATTEMPTS = [0, 1, 2] := rfl

lemma loopGo_exec_mem (env : Env) (l : List Nat) (j : Nat)
    (h : Ev.answerExecCall j ∈ (answerLoopGo env l).2) :
    ∃ pre post, l = pre ++ j :: post ∧
      ∀ i ∈ pre, answerSucceeded (env.answerExec i) = false := by
  induction l with
  | nil => simp [answerLoopGo] at h
  | cons attempt rest ih =>
    rw [answerLoopGo] at h
    by_cases hs : answerSucceeded (env.answerExec attempt)
    · rw [if_pos hs] at h
      simp at h
      exact ⟨[], rest, by simp [h], by simp⟩
    · rw [if_neg hs] at h
      by_cases hlt : attempt < MAX_ATTEMPTS - 1
      · rw [if_pos hlt] at h
        cases hr : env.repair attempt (last_n_words (env.answerExec attempt).output 100) with
        | error e =>
          rw [hr] at h
          simp at h
          exact ⟨[], rest, by simp [h], by simp⟩
        | ok a =>
          rw [hr] at h
          simp at h
          rcases h with h | h
          · exact ⟨[], rest, by simp [h], by simp⟩
          · obtain ⟨pre, post, heq, hfail⟩ := ih h
            refine ⟨attempt :: pre, post, by simp [heq], ?_⟩
            intro i hi
            rcases List.mem_cons.mp hi with hi | hi
            · subst hi
              simpa using hs
            · exact hfail i hi
      · rw [if_neg hlt] at h
        simp at h
        exact ⟨[], rest, by simp [h], by simp⟩

lemma loopGo_repair_mem (env : Env) (l : List Nat) (k : Nat) (m : String)
    (h : Ev.repairCall k m ∈ (answerLoopGo env l).2) :
    k ∈ l ∧ m = retryMsg env k ∧
      answerSucceeded (env.answerExec k) = false ∧ k < MAX_ATTEMPTS - 1 := by
  induction l with
  | nil => simp [answerLoopGo] at h
  | cons attempt rest ih =>
    rw [answerLoopGo] at h
    by_cases hs : answerSucceeded (env.answerExec attempt)
    · rw [if_pos hs] at h
      simp at h
    · rw [if_neg hs] at h
      by_cases hlt : attempt < MAX_ATTEMPTS - 1
      · rw [if_pos hlt] at h
        cases hr : env.repair attempt (last_n_words (env.answerExec attempt).output 100) with
        | error e =>
          rw [hr] at h
          simp at h
          obtain ⟨hk, hm⟩ := h
          subst hk
          exact ⟨by simp, by simp [hm, retryMsg], by
            simpa using hs, hlt⟩
        | ok a =>
          rw [hr] at h
          simp at h
          rcases h with ⟨hk, hm⟩ | h
          · subst hk
            exact ⟨by simp, by simp [hm, retryMsg], by simpa using hs, hlt⟩
          · obtain ⟨hk, hm, hf, hl⟩ := ih h
            exact ⟨by simp [hk], hm, hf, hl⟩
      · rw [if_neg hlt] at h
        simp at h

lemma loopGo_execCount (env : Env) (l : List Nat) :
    execCount (answerLoopGo env l).2 ≤ l.length := by
  induction l with
  | nil => simp [answerLoopGo, execCount]
  | cons attempt rest ih =>
    rw [answerLoopGo]
    by_cases hs : answerSucceeded (env.answerExec attempt)
    · rw [if_pos hs]
      simp [execCount, Ev.isAnswerExec]
    · rw [if_neg hs]
      by_cases hlt : attempt < MAX_ATTEMPTS - 1
      · rw [if_pos hlt]
        cases hr : env.repair attempt (last_n_words (env.answerExec attempt).output 100) with
        | error e =>
          simp [execCount, List.countP_cons, Ev.isAnswerExec]
        | ok a =>
          simp only [execCount, List.countP_cons] at ih ⊢
          simp [Ev.isAnswerExec, List.length_cons]
          omega
      · rw [if_neg hlt]
        simp [execCount, Ev.isAnswerExec]

lemma loopGo_events (env : Env) (l : List Nat) :
    ∀ e ∈ (answerLoopGo env l).2,
      (∃ k, e = Ev.answerExecCall k) ∨ (∃ k m, e = Ev.repairCall k m) := by
  induction l with
  | nil => simp [answerLoopGo]
  | cons attempt rest ih =>
    rw [answerLoopGo]
    by_cases hs : answerSucceeded (env.answerExec attempt)
    · rw [if_pos hs]
      simp
    · rw [if_neg hs]
      by_cases hlt : attempt < MAX_ATTEMPTS - 1
      · rw [if_pos hlt]
        cases hr : env.repair attempt (last_n_words (env.answerExec attempt).output 100) with
        | error e => simp
        | ok a =>
          intro e he
          simp at he
          rcases he with he | he | he
          · exact Or.inl ⟨attempt, he⟩
          · exact Or.inr ⟨attempt, _, he⟩
          · exact ih e he
      · rw [if_neg hlt]
        simp

lemma loop_exec_mem (env : Env) (j : Nat)
    (h : Ev.answerExecCall j ∈ (answerLoop env).2) :
    j < MAX_ATTEMPTS ∧ ∀ i < j, answerSucceeded (env.answerExec i) = false := by
  rw [answerLoop, range_max_attempts] at h
  obtain ⟨pre, post, heq, hfail⟩ := loopGo_exec_mem env _ j h
  rcases pre with _ | ⟨a, _ | ⟨b, _ | ⟨c, pre'⟩⟩⟩
  · simp at heq
    obtain ⟨hj, -⟩ := heq
    subst hj
    exact ⟨by simp [MAX_ATTEMPTS], fun i hi => absurd hi (by omega)⟩
  · simp at heq
    obtain ⟨ha, hj, -⟩ := heq
    subst ha; subst hj
    refine ⟨by simp [MAX_ATTEMPTS], ?_⟩
    intro i hi
    interval_cases i
    exact hfail 0 (by simp)
  · simp at heq
    obtain ⟨ha, hb, hj, -⟩ := heq
    subst ha; subst hb; subst hj
    refine ⟨by simp [MAX_ATTEMPTS], ?_⟩
    intro i hi
    interval_cases i
    · exact hfail 0 (by simp)
    · exact hfail 1 (by simp)
  · simp at heq

lemma loop_repair_mem (env : Env) (k : Nat) (m : String)
    (h : Ev.repairCall k m ∈ (answerLoop env).2) :
    k < MAX_ATTEMPTS - 1 ∧ m = retryMsg env k ∧
      answerSucceeded (env.answerExec k) = false := by
  rw [answerLoop] at h
  obtain ⟨-, hm, hf, hl⟩ := loopGo_repair_mem env _ k m h
  exact ⟨hl, hm, hf⟩

lemma loop_execCount (env : Env) :
    execCount (answerLoop env).2 ≤ MAX_ATTEMPTS := by
  rw [answerLoop]
  simpa using loopGo_execCount env (List.range MAX_ATTEMPTS)

lemma loop_events (env : Env) :
    ∀ e ∈ (answerLoop env).2,
      (∃ k, e = Ev.answerExecCall k) ∨ (∃ k m, e = Ev.repairCall k m) :=
  loopGo_events env (List.range MAX_ATTEMPTS)

/-- Attempt 0 fails and the repair call raises: the loop stops at once. -/
lemma loop_repairErr_at0 (env : Env) (e : String)
    (h0 : answerSucceeded (env.answerExec 0) = false)
    (hr : env.repair 0 (retryMsg env 0) = Except.error e) :
    answerLoop env = (LoopResult.repairError e,
      [Ev.answerExecCall 0, Ev.repairCall 0 (retryMsg env 0)]) := by
  rw [answerLoop, range_max_attempts, answerLoopGo, if_neg (by simp [h0]),
    if_pos (by simp [MAX_ATTEMPTS])]
  rw [retryMsg] at hr
  rw [hr]
  simp [retryMsg]

/-- Attempts 0 and 1 fail, repair 0 succeeds, repair 1 raises. -/
lemma loop_repairErr_at1 (env : Env) (e : String) (a0 : AnswerResp)
    (h0 : answerSucceeded (env.answerExec 0) = false)
    (h1 : answerSucceeded (env.answerExec 1) = false)
    (hr0 : env.repair 0 (retryMsg env 0) = Except.ok a0)
    (hr1 : env.repair 1 (retryMsg env 1) = Except.error e) :
    answerLoop env = (LoopResult.repairError e,
      [Ev.answerExecCall 0, Ev.repairCall 0 (retryMsg env 0),
        Ev.answerExecCall 1, Ev.repairCall 1 (retryMsg env 1)]) := by
  rw [answerLoop, range_max_attempts, answerLoopGo, if_neg (by simp [h0]),
    if_pos (by simp [MAX_ATTEMPTS])]
  rw [retryMsg] at hr0 hr1
  rw [hr0, answerLoopGo, if_neg (by simp [h1]), if_pos (by simp [MAX_ATTEMPTS]), hr1]
  simp [retryMsg]

/-- All three attempts fail and both repairs succeed: exhaustion carrying
attempt 3's raw output. -/
lemma loop_exhausted (env : Env) (a0 a1 : AnswerResp)
    (h0 : answerSucceeded (env.answerExec 0) = false)
    (h1 : answerSucceeded (env.answerExec 1) = false)
    (h2 : answerSucceeded (env.answerExec 2) = false)
    (hr0 : env.repair 0 (retryMsg env 0) = Except.ok a0)
    (hr1 : env.repair 1 (retryMsg env 1) = Except.ok a1) :
    answerLoop env = (LoopResult.exhausted (env.answerExec 2).output,
      [Ev.answerExecCall 0, Ev.repairCall 0 (retryMsg env 0),
        Ev.answerExecCall 1, Ev.repairCall 1 (retryMsg env 1),
        Ev.answerExecCall 2]) := by
  rw [answerLoop, range_max_attempts, answerLoopGo, if_neg (by simp [h0]),
    if_pos (by simp [MAX_ATTEMPTS])]
  rw [retryMsg] at hr0 hr1
  rw [hr0, answerLoopGo, if_neg (by simp [h1]), if_pos (by simp [MAX_ATTEMPTS]),
    hr1, answerLoopGo, if_neg (by simp [h2]), if_neg (by simp [MAX_ATTEMPTS])]
  simp [retryMsg]

/-! ## Lemmas about the save loop -/

lemma saveLoop_events (env : Env) (fields : List (String × String))
    (qt : Option String) :
    ∀ e ∈ (saveLoop env fields qt).2, ∃ n, e = Ev.fileWritten n := by
  induction fields generalizing qt with
  | nil => simp [saveLoop]
  | cons f rest ih =>
    rw [saveLoop]
    cases hs : env.save f.1 with
    | error e => simp
    | ok u =>
      intro e he
      simp at he
      rcases he with he | he
      · exact ⟨f.1, he⟩
      · exact ih _ e he

/-- When all writes succeed and no field name contains `questions.txt`,
the save loop writes exactly the fields' files and yields no question. -/
lemma saveLoop_no_question (env : Env) (fields : List (String × String))
    (hsave : ∀ f ∈ fields, env.save f.1 = Except.ok ())
    (hq : ∀ f ∈ fields, containsQuestionsTxt f.1 = false) :
    saveLoop env fields none
      = (Except.ok none, fields.map fun f => Ev.fileWritten f.1) := by
  induction fields with
  | nil => simp [saveLoop]
  | cons f rest ih =>
    rw [saveLoop, hsave f (by simp)]
    simp only [hq f (by simp), Bool.false_eq_true, if_false]
    rw [ih (fun g hg => hsave g (by simp [hg])) (fun g hg => hq g (by simp [hg]))]
    simp

/-- When all writes succeed the save loop returns `Except.ok`. -/
lemma saveLoop_ok (env : Env) (fields : List (String × String))
    (qt : Option String)
    (hsave : ∀ f ∈ fields, env.save f.1 = Except.ok ()) :
    ∃ qt2, (saveLoop env fields qt).1 = Except.ok qt2 := by
  induction fields generalizing qt with
  | nil => exact ⟨qt, rfl⟩
  | cons f rest ih =>
    rw [saveLoop, hsave f (by simp)]
    exact ih _ (fun g hg => hsave g (by simp [hg]))

/-! ## Structural lemmas about the handler -/

lemma afterLoop_snd_mem (env : Env) (pre : List Ev) (e : Ev)
    (h : e ∈ (afterLoop env pre).2) :
    e ∈ pre ∨ e ∈ (answerLoop env).2 ∨ e = Ev.resultRead := by
  rw [afterLoop] at h
  split at h
  · simp at h
    tauto
  · simp at h
    tauto
  · split at h <;> · simp at h; tauto

/-- Every event of an `analyze` trace is a fixed pre-loop event, a file
write, a loop event, or the result read. -/
lemma analyze_snd_mem (env : Env) (e : Ev) (h : e ∈ (analyze env).2) :
    e = Ev.mkdirFolder ∨ e = Ev.logFileCreated ∨
      (∃ n, e = Ev.fileWritten n) ∨ e = Ev.parseCall ∨
      e = Ev.scrapeExecCall ∨ e = Ev.answerFirstCall ∨
      e ∈ (answerLoop env).2 ∨ e = Ev.resultRead := by
  rw [analyze] at h
  split at h
  · simp at h
    tauto
  · rename_i fields hform
    split at h
    · rename_i e' hsv
      simp at h
      rcases h with h | h | h
      · tauto
      · tauto
      · exact Or.inr (Or.inr (Or.inl (saveLoop_events env fields none e h)))
    · rename_i qt hsv
      split at h
      · simp at h
        rcases h with h | h | h
        · tauto
        · tauto
        · exact Or.inr (Or.inr (Or.inl (saveLoop_events env fields none e h)))
      · split at h
        · simp at h
          rcases h with h | h | h | h
          · tauto
          · tauto
          · exact Or.inr (Or.inr (Or.inl (saveLoop_events env fields none e h)))
          · tauto
        · split at h
          · simp at h
            rcases h with h | h | h | h | h
            · tauto
            · tauto
            · exact Or.inr (Or.inr (Or.inl (saveLoop_events env fields none e h)))
            · tauto
            · tauto
          · split at h
            · simp at h
              rcases h with h | h | h | h | h
              · tauto
              · tauto
              · exact Or.inr (Or.inr (Or.inl (saveLoop_events env fields none e h)))
              · tauto
              · tauto
            · split at h
              · simp at h
                rcases h with h | h | h | h | h | h
                · tauto
                · tauto
                · exact Or.inr (Or.inr (Or.inl (saveLoop_events env fields none e h)))
                · tauto
                · tauto
                · tauto
              · rcases afterLoop_snd_mem env _ e h with h | h | h
                · simp at h
                  rcases h with h | h | h | h | h | h
                  · tauto
                  · tauto
                  · exact Or.inr (Or.inr (Or.inl (saveLoop_events env fields none e h)))
                  · tauto
                  · tauto
                  · tauto
                · tauto
                · tauto

/-- Shape of every `analyze` trace: pre-loop events, then possibly the loop
trace, then — exactly when the loop reported success — one result read. -/
lemma analyze_shape (env : Env) :
    ∃ pre, (∀ e ∈ pre, PreEv e) ∧
      ((analyze env).2 = pre ∨
        (analyze env).2 = pre ++ (answerLoop env).2 ∨
        ((analyze env).2 = pre ++ (answerLoop env).2 ++ [Ev.resultRead] ∧
          ∃ k, (answerLoop env).1 = LoopResult.success k)) := by
  rw [analyze]
  split
  · exact ⟨_, by simp [PreEv], Or.inl rfl⟩
  · rename_i fields hform
    have hsv := saveLoop_events env fields none
    split
    · refine ⟨_, ?_, Or.inl rfl⟩
      intro e he
      simp at he
      rcases he with he | he | he
      · simp [PreEv, he]
      · simp [PreEv, he]
      · exact Or.inr (Or.inr (Or.inl (hsv e he)))
    · rename_i qt heq
      have hpre : ∀ e ∈ [Ev.mkdirFolder, Ev.logFileCreated]
          ++ (saveLoop env fields none).2
          ++ [Ev.parseCall, Ev.scrapeExecCall, Ev.answerFirstCall], PreEv e := by
        intro e he
        simp at he
        rcases he with he | he | he | he | he | he
        · simp [PreEv, he]
        · simp [PreEv, he]
        · exact Or.inr (Or.inr (Or.inl (hsv e he)))
        · simp [PreEv, he]
        · simp [PreEv, he]
        · simp [PreEv, he]
      have hpre' : ∀ (l : List Ev),
          (∀ e ∈ l, PreEv e) → ∀ e ∈ [Ev.mkdirFolder, Ev.logFileCreated]
            ++ (saveLoop env fields none).2 ++ l, PreEv e := by
        intro l hl e he
        simp at he
        rcases he with he | he | he | he
        · simp [PreEv, he]
        · simp [PreEv, he]
        · exact Or.inr (Or.inr (Or.inl (hsv e he)))
        · exact hl e he
      split
      · exact ⟨_, hpre' [] (by simp), Or.inl (by simp)⟩
      · split
        · exact ⟨_, hpre' [Ev.parseCall] (by simp [PreEv]), Or.inl rfl⟩
        · split
          · exact ⟨_, hpre' [Ev.parseCall, Ev.scrapeExecCall]
              (by simp [PreEv]), Or.inl rfl⟩
          · split
            · exact ⟨_, hpre' [Ev.parseCall, Ev.scrapeExecCall]
                (by simp [PreEv]), Or.inl rfl⟩
            · split
              · exact ⟨_, hpre'
                  [Ev.parseCall, Ev.scrapeExecCall, Ev.answerFirstCall]
                  (by simp [PreEv]), Or.inl rfl⟩
              · refine ⟨_, hpre, ?_⟩
                rw [afterLoop]
                split
                · exact Or.inr (Or.inl rfl)
                · exact Or.inr (Or.inl rfl)
                · rename_i k hk
                  split
                  · exact Or.inr (Or.inr ⟨by simp, k, hk⟩)
                  · exact Or.inr (Or.inr ⟨by simp, k, hk⟩)

lemma PreEv.not_exec {e : Ev} (h : PreEv e) : Ev.isAnswerExec e = false := by
  rcases h with h | h | ⟨n, h⟩ | h | h | h <;> subst h <;> rfl

lemma PreEv.not_repair {e : Ev} (h : PreEv e) : Ev.isRepair e = false := by
  rcases h with h | h | ⟨n, h⟩ | h | h | h <;> subst h <;> rfl

lemma PreEv.ne_read {e : Ev} (h : PreEv e) : e ≠ Ev.resultRead := by
  rcases h with h | h | ⟨n, h⟩ | h | h | h <;> subst h <;> simp

lemma loop_not_read (env : Env) : Ev.resultRead ∉ (answerLoop env).2 := by
  intro h
  rcases loop_events env _ h with ⟨k, hk⟩ | ⟨k, m, hk⟩ <;> simp at hk

/-- Every answer-phase executor event of an `analyze` trace comes from the
retry loop. -/
lemma analyze_exec_mem (env : Env) (j : Nat)
    (h : Ev.answerExecCall j ∈ (analyze env).2) :
    Ev.answerExecCall j ∈ (answerLoop env).2 := by
  obtain ⟨pre, hpre, hsh⟩ := analyze_shape env
  have hnp : Ev.answerExecCall j ∉ pre := by
    intro hc
    have := (hpre _ hc).not_exec
    simp [Ev.isAnswerExec] at this
  rcases hsh with hsh | hsh | ⟨hsh, -⟩ <;> rw [hsh] at h
  · exact absurd h hnp
  · simp at h
    tauto
  · simp at h
    rcases h with h | h
    · exact absurd h hnp
    · exact h

/-- Every repair event of an `analyze` trace comes from the retry loop. -/
lemma analyze_repair_mem (env : Env) (k : Nat) (m : String)
    (h : Ev.repairCall k m ∈ (analyze env).2) :
    Ev.repairCall k m ∈ (answerLoop env).2 := by
  obtain ⟨pre, hpre, hsh⟩ := analyze_shape env
  have hnp : Ev.repairCall k m ∉ pre := by
    intro hc
    have := (hpre _ hc).not_repair
    simp [Ev.isRepair] at this
  rcases hsh with hsh | hsh | ⟨hsh, -⟩ <;> rw [hsh] at h
  · exact absurd h hnp
  · simp at h
    tauto
  · simp at h
    rcases h with h | h
    · exact absurd h hnp
    · exact h

lemma analyze_execCount (env : Env) :
    execCount (analyze env).2 ≤ MAX_ATTEMPTS := by
  obtain ⟨pre, hpre, hsh⟩ := analyze_shape env
  have hz : execCount pre = 0 :=
    List.countP_eq_zero.mpr fun e he => by
      simp [(hpre e he).not_exec]
  have hloop := loop_execCount env
  rcases hsh with hsh | hsh | ⟨hsh, -⟩ <;> rw [execCount, hsh]
  · simpa [execCount] using hz.le.trans (by simp [MAX_ATTEMPTS])
  · rw [List.countP_append]
    rw [execCount] at hz hloop
    omega
  · rw [List.countP_append, List.countP_append]
    rw [execCount] at hz hloop
    simp [Ev.isAnswerExec]
    omega

lemma append_singleton_eq {α : Type} (a : α) (l p q : List α)
    (ha : a ∉ l) (h : l ++ [a] = p ++ a :: q) : q = [] := by
  induction l generalizing p with
  | nil =>
    cases p with
    | nil => simpa using h.symm
    | cons x p' =>
      rw [List.nil_append, List.cons_append] at h
      injection h with h1 h2
      exact absurd h2.symm (by simp)
  | cons x l' ih =>
    have hax : a ≠ x := fun hc => ha (hc ▸ List.mem_cons_self x l')
    have ha' : a ∉ l' := fun hc => ha (List.mem_cons_of_mem x hc)
    cases p with
    | nil =>
      rw [List.cons_append, List.nil_append] at h
      injection h with h1 h2
      exact absurd h1 hax.symm
    | cons y p' =>
      rw [List.cons_append, List.cons_append] at h
      injection h with h1 h2
      exact ih p' ha' h2

lemma analyze_not_read_of_pre (env : Env) (pre : List Ev)
    (hpre : ∀ e ∈ pre, PreEv e) :
    Ev.resultRead ∉ pre ++ (answerLoop env).2 := by
  intro h
  rcases List.mem_append.mp h with h | h
  · exact (hpre _ h).ne_read rfl
  · exact loop_not_read env h

/-- A result read, when present, is the last event of the trace: nothing —
in particular no loop re-entry — happens after it. -/
lemma analyze_read_last (env : Env) (pre post : List Ev)
    (h : (analyze env).2 = pre ++ Ev.resultRead :: post) : post = [] := by
  obtain ⟨pre0, hpre0, hsh⟩ := analyze_shape env
  have hmem : Ev.resultRead ∈ (analyze env).2 := by
    rw [h]
    simp
  rcases hsh with hsh | hsh | ⟨hsh, -⟩
  · rw [hsh] at hmem
    exact absurd rfl (hpre0 _ hmem).ne_read
  · rw [hsh] at hmem
    exact absurd hmem (analyze_not_read_of_pre env pre0 hpre0)
  · rw [hsh] at h
    exact append_singleton_eq Ev.resultRead (pre0 ++ (answerLoop env).2) pre post
      (analyze_not_read_of_pre env pre0 hpre0) h

lemma analyze_readCount (env : Env) : readCount (analyze env).2 ≤ 1 := by
  obtain ⟨pre, hpre, hsh⟩ := analyze_shape env
  have hz : readCount pre = 0 :=
    List.countP_eq_zero.mpr fun e he => by
      simp [(hpre e he).ne_read]
  have hlz : readCount (answerLoop env).2 = 0 :=
    List.countP_eq_zero.mpr fun e he => by
      rcases loop_events env e he with ⟨k, hk⟩ | ⟨k, m, hk⟩ <;> simp [hk]
  rw [readCount] at hz hlz
  rcases hsh with hsh | hsh | ⟨hsh, -⟩ <;>
    simp [readCount, hsh, List.countP_append, hz, hlz]

/-! ## Branch computations of the handler -/

/-- No field name contains `questions.txt` and all writes succeed: the
handler answers 400, after writing every uploaded field (and the log). -/
lemma analyze_400 (env : Env) (fields : List (String × String))
    (hform : env.form = Except.ok fields)
    (hsave : ∀ f ∈ fields, env.save f.1 = Except.ok ())
    (hq : ∀ f ∈ fields, containsQuestionsTxt f.1 = false) :
    analyze env
      = (HResult.response 400 (Body.errMsg "questions.txt is a required field."),
        [Ev.mkdirFolder, Ev.logFileCreated]
          ++ fields.map fun f => Ev.fileWritten f.1) := by
  rw [analyze, hform]
  simp [saveLoop_no_question env fields hsave hq, questionMissing]

/-- Scrape execution classified as failed: immediate 500 carrying the raw
output; the trace shows one scrape execution and stops there. -/
lemma analyze_scrape_fail (env : Env) (fields : List (String × String))
    (qt : Option String) (pr : ParseResp)
    (hform : env.form = Except.ok fields)
    (hsv : (saveLoop env fields none).1 = Except.ok qt)
    (hq : questionMissing qt = false)
    (hparse : env.parseLLM = Except.ok pr)
    (hsf : scrapeFailed env.scrapeExec = true) :
    analyze env
      = (HResult.response 500
          (Body.errDetails "Failed to execute data scraping code."
            env.scrapeExec.output),
        [Ev.mkdirFolder, Ev.logFileCreated] ++ (saveLoop env fields none).2
          ++ [Ev.parseCall, Ev.scrapeExecCall]) := by
  rw [analyze, hform]
  simp [hsv, hq, hparse, hsf]

/-- Scrape reported success but `metadata.txt` is absent: immediate 500,
no answer-phase activity. -/
lemma analyze_meta_missing (env : Env) (fields : List (String × String))
    (qt : Option String) (pr : ParseResp)
    (hform : env.form = Except.ok fields)
    (hsv : (saveLoop env fields none).1 = Except.ok qt)
    (hq : questionMissing qt = false)
    (hparse : env.parseLLM = Except.ok pr)
    (hsf : scrapeFailed env.scrapeExec = false)
    (hmeta : env.metadataExists = false) :
    analyze env
      = (HResult.response 500
          (Body.errMsg ("Scraping code executed successfully, but failed to create metadata.txt at "
            ++ env.folder ++ "/metadata.txt.")),
        [Ev.mkdirFolder, Ev.logFileCreated] ++ (saveLoop env fields none).2
          ++ [Ev.parseCall, Ev.scrapeExecCall]) := by
  rw [analyze, hform]
  simp [hsv, hq, hparse, hsf, hmeta]

/-- All gates up to the answer phase pass: the handler is the retry loop
followed by the result read. -/
lemma analyze_reach_loop (env : Env) (fields : List (String × String))
    (qt : Option String) (pr : ParseResp) (ar : AnswerResp)
    (hform : env.form = Except.ok fields)
    (hsv : (saveLoop env fields none).1 = Except.ok qt)
    (hq : questionMissing qt = false)
    (hparse : env.parseLLM = Except.ok pr)
    (hsf : scrapeFailed env.scrapeExec = false)
    (hmeta : env.metadataExists = true)
    (hans : env.answerFirst = Except.ok ar) :
    analyze env = afterLoop env
      ([Ev.mkdirFolder, Ev.logFileCreated] ++ (saveLoop env fields none).2
        ++ [Ev.parseCall, Ev.scrapeExecCall, Ev.answerFirstCall]) := by
  rw [analyze, hform]
  simp [hsv, hq, hparse, hsf, hmeta, hans]

/-- As long as form parsing and the file writes succeed, the handler always
produces an HTTP response: every later failure is caught. -/
lemma analyze_no_unhandled (env : Env) (fields : List (String × String))
    (hform : env.form = Except.ok fields)
    (hsave : ∀ f ∈ fields, env.save f.1 = Except.ok ()) :
    ∃ s b, (analyze env).1 = HResult.response s b := by
  obtain ⟨qt, hsv⟩ := saveLoop_ok env fields none hsave
  rw [analyze, hform]
  simp only [hsv]
  split
  · exact ⟨400, _, rfl⟩
  · split
    · exact ⟨500, _, rfl⟩
    · split
      · exact ⟨500, _, rfl⟩
      · split
        · exact ⟨500, _, rfl⟩
        · split
          · exact ⟨500, _, rfl⟩
          · rw [afterLoop]
            split
            · exact ⟨500, _, rfl⟩
            · exact ⟨500, _, rfl⟩
            · split
              · exact ⟨200, _, rfl⟩
              · exact ⟨500, _, rfl⟩

lemma saveLoop_countP_zero (env : Env) (fields : List (String × String))
    (qt : Option String) (p : Ev → Bool)
    (hp : ∀ n, p (Ev.fileWritten n) = false) :
    (saveLoop env fields qt).2.countP p = 0 :=
  List.countP_eq_zero.mpr fun e he => by
    obtain ⟨n, hn⟩ := saveLoop_events env fields qt e he
    simp [hn, hp]

lemma not_mem_saveLoop_exec (env : Env) (fields : List (String × String))
    (qt : Option String) (j : Nat) :
    Ev.answerExecCall j ∉ (saveLoop env fields qt).2 := by
  intro h
  obtain ⟨n, hn⟩ := saveLoop_events env fields qt _ h
  simp at hn

lemma not_mem_saveLoop_repair (env : Env) (fields : List (String × String))
    (qt : Option String) (k : Nat) (m : String) :
    Ev.repairCall k m ∉ (saveLoop env fields qt).2 := by
  intro h
  obtain ⟨n, hn⟩ := saveLoop_events env fields qt _ h
  simp at hn

lemma not_mem_saveLoop_answerFirst (env : Env) (fields : List (String × String))
    (qt : Option String) :
    Ev.answerFirstCall ∉ (saveLoop env fields qt).2 := by
  intro h
  obtain ⟨n, hn⟩ := saveLoop_events env fields qt _ h
  simp at hn

/-! ## The claims -/

/-- C1: For every request reaching the answer phase, the number of
answer-code executions is at most 3, execution attempt `k+1` is started only
if attempt `k`'s outcome was a failure (`code ≠ 1`), and on the first
successful attempt the loop exits immediately: no later attempt is run. -/
theorem C1_repair_loop_invariant (env : Env) :
    execCount (analyze env).2 ≤ 3 ∧
    (∀ k, Ev.answerExecCall (k + 1) ∈ (analyze env).2 →
      (env.answerExec k).code ≠ 1) ∧
    (∀ k j, (env.answerExec k).code = 1 → k < j →
      Ev.answerExecCall j ∉ (analyze env).2) := by
  refine ⟨?_, ?_, ?_⟩
  · simpa [MAX_ATTEMPTS] using analyze_execCount env
  · intro k hk
    have h := loop_exec_mem env (k + 1) (analyze_exec_mem env _ hk)
    have hf := h.2 k (by omega)
    rwa [answerSucceeded_false_iff] at hf
  · intro k j hcode hkj hmem
    have h := loop_exec_mem env j (analyze_exec_mem env _ hmem)
    have hf := h.2 k hkj
    rw [answerSucceeded_false_iff] at hf
    exact hf hcode

/-- Witness for C1 at a concrete request in which attempt 0 fails and
attempt 1 succeeds. -/
theorem C1_repair_loop_invariant_witness :
    execCount (analyze envSecondTry).2 ≤ 3 ∧
    (envSecondTry.answerExec 0).code ≠ 1 ∧
    Ev.answerExecCall 2 ∉ (analyze envSecondTry).2 :=
  ⟨(C1_repair_loop_invariant envSecondTry).1,
    (C1_repair_loop_invariant envSecondTry).2.1 0 (by decide),
    (C1_repair_loop_invariant envSecondTry).2.2 1 2 (by decide) (by decide)⟩

/-- C2: every diagnostic excerpt handed to a repair call is
`last_n_words(output, 100)`: it has at most 100 whitespace-delimited tokens,
and its tokens are exactly the trailing `min 100 total` tokens of the full
captured output of the failed attempt, in order. -/
theorem C2_diagnostic_excerpt (env : Env) (k : Nat) (m : String)
    (hmem : Ev.repairCall k m ∈ (analyze env).2) :
    m = retryMsg env k ∧
    (words m.data).length ≤ 100 ∧
    words m.data
      = (words (env.answerExec k).output.data).drop
          ((words (env.answerExec k).output.data).length - 100) ∧
    words m.data <:+ words (env.answerExec k).output.data ∧
    (words m.data).length
      = min 100 (words (env.answerExec k).output.data).length := by
  obtain ⟨-, hm, -⟩ := loop_repair_mem env k m (analyze_repair_mem env k m hmem)
  subst hm
  refine ⟨rfl, ?_, ?_, ?_, ?_⟩
  · rw [retryMsg, words_last_n_words_length]
    omega
  · rw [retryMsg]
    exact words_last_n_words _ _
  · rw [retryMsg]
    exact words_last_n_words_suffix _ _
  · rw [retryMsg]
    exact words_last_n_words_length _ _

/-- Witness for C2 at a concrete request whose attempt 0 fails with output
`"ZeroDivisionError: division by zero"`. -/
theorem C2_diagnostic_excerpt_witness :
    retryMsg envRepairRaises 0 = retryMsg envRepairRaises 0 ∧
    (words (retryMsg envRepairRaises 0).data).length ≤ 100 ∧
    words (retryMsg envRepairRaises 0).data
      = (words (envRepairRaises.answerExec 0).output.data).drop
          ((words (envRepairRaises.answerExec 0).output.data).length - 100) ∧
    words (retryMsg envRepairRaises 0).data
      <:+ words (envRepairRaises.answerExec 0).output.data ∧
    (words (retryMsg envRepairRaises 0).data).length
      = min 100 (words (envRepairRaises.answerExec 0).output.data).length :=
  C2_diagnostic_excerpt envRepairRaises 0 (retryMsg envRepairRaises 0) (by
    have hloop := loop_repairErr_at0 envRepairRaises "rate limited" rfl rfl
    have hana := analyze_reach_loop envRepairRaises
      [("questions.txt", "What is 2+2?")] (some "What is 2+2?")
      ⟨"print(1)", [], "Q?"⟩ ⟨"print(2)", []⟩ rfl rfl rfl rfl rfl rfl rfl
    rw [hana, afterLoop, hloop]
    simp)

/-- C3 counterexample: a request with a single field `data.csv` (no name
contains `questions.txt`) is answered 400, but the folder does receive
writes: the uploaded field is saved and the log file is created. -/
theorem C3_counterexample :
    (analyze envNoQuestion).1
      = HResult.response 400 (Body.errMsg "questions.txt is a required field.") ∧
    Ev.fileWritten "data.csv" ∈ (analyze envNoQuestion).2 ∧
    Ev.logFileCreated ∈ (analyze envNoQuestion).2 := by
  decide

/-- C3 (amended): when no field name contains `questions.txt` (and form
parsing and the writes succeed), the response is 400 — but only after the
handler has created the folder and log file and written every form field
into the working folder; those are exactly the side effects. -/
theorem C3_missing_question_400 (env : Env) (fields : List (String × String))
    (hform : env.form = Except.ok fields)
    (hsave : ∀ f ∈ fields, env.save f.1 = Except.ok ())
    (hq : ∀ f ∈ fields, containsQuestionsTxt f.1 = false) :
    (analyze env).1
      = HResult.response 400 (Body.errMsg "questions.txt is a required field.") ∧
    (analyze env).2
      = [Ev.mkdirFolder, Ev.logFileCreated]
          ++ fields.map fun f => Ev.fileWritten f.1 := by
  rw [analyze_400 env fields hform hsave hq]
  exact ⟨rfl, rfl⟩

/-- Witness for the amended C3 at the concrete `data.csv` request. -/
theorem C3_missing_question_400_witness :
    (analyze envNoQuestion).1
      = HResult.response 400 (Body.errMsg "questions.txt is a required field.") ∧
    (analyze envNoQuestion).2
      = [Ev.mkdirFolder, Ev.logFileCreated]
          ++ [("data.csv", "a,b\n1,2")].map fun f => Ev.fileWritten f.1 :=
  C3_missing_question_400 envNoQuestion [("data.csv", "a,b\n1,2")]
    rfl (fun f _ => rfl)
    (by
      intro f hf
      simp at hf
      subst hf
      decide)

/-- C10: the two phases classify the executor's status code with different
predicates — the scrape guard calls status 0 a failure and everything else a
success, the answer guard calls status 1 a success and everything else a
failure; so any status other than 0 and 1 passes the scrape check yet fails
the answer check. -/
theorem C10_phase_classifiers (r : ExecOutcome) :
    (scrapeFailed r = true ↔ r.code = 0) ∧
    (answerSucceeded r = true ↔ r.code = 1) ∧
    (r.code ≠ 0 → r.code ≠ 1 →
      scrapeFailed r = false ∧ answerSucceeded r = false) := by
  refine ⟨by simp [scrapeFailed], by simp [answerSucceeded], fun h0 h1 => ?_⟩
  exact ⟨by simp [scrapeFailed, h0], by simp [answerSucceeded, h1]⟩

/-- Witness for C10 at status code 2. -/
theorem C10_phase_classifiers_witness :
    scrapeFailed ⟨2, "out"⟩ = false ∧ answerSucceeded ⟨2, "out"⟩ = false :=
  (C10_phase_classifiers ⟨2, "out"⟩).2.2 (by decide) (by decide)

/-- C4: a scrape-phase execution failure (status 0) terminates the request
at once with a 500 whose details are the captured output; the scrape code is
executed exactly once and no answer-phase execution or repair ever occurs. -/
theorem C4_scrape_failure_fatal (env : Env) (fields : List (String × String))
    (qt : Option String) (pr : ParseResp)
    (hform : env.form = Except.ok fields)
    (hsv : (saveLoop env fields none).1 = Except.ok qt)
    (hq : questionMissing qt = false)
    (hparse : env.parseLLM = Except.ok pr)
    (hsf : env.scrapeExec.code = 0) :
    (analyze env).1
      = HResult.response 500
          (Body.errDetails "Failed to execute data scraping code."
            env.scrapeExec.output) ∧
    scrapeCount (analyze env).2 = 1 ∧
    (∀ j, Ev.answerExecCall j ∉ (analyze env).2) ∧
    (∀ k m, Ev.repairCall k m ∉ (analyze env).2) := by
  have hsf' : scrapeFailed env.scrapeExec = true := by
    simp [scrapeFailed, hsf]
  rw [analyze_scrape_fail env fields qt pr hform hsv hq hparse hsf']
  refine ⟨rfl, ?_, ?_, ?_⟩
  · simp only [scrapeCount, List.countP_append,
      saveLoop_countP_zero env fields none
        (fun e => decide (e = Ev.scrapeExecCall)) (fun n => rfl)]
    rfl
  · intro j
    simp [not_mem_saveLoop_exec env fields none j]
  · intro k m
    simp [not_mem_saveLoop_repair env fields none k m]

/-- Witness for C4 at a concrete request whose scrape run returns status 0. -/
theorem C4_scrape_failure_fatal_witness :
    (analyze envScrapeFail).1
      = HResult.response 500
          (Body.errDetails "Failed to execute data scraping code."
            "Traceback: boom") ∧
    scrapeCount (analyze envScrapeFail).2 = 1 ∧
    Ev.answerExecCall 0 ∉ (analyze envScrapeFail).2 ∧
    Ev.repairCall 0 "x" ∉ (analyze envScrapeFail).2 := by
  have h := C4_scrape_failure_fatal envScrapeFail
    [("questions.txt", "What is 2+2?")] (some "What is 2+2?")
    ⟨"print(1)", [], "Q?"⟩ rfl rfl rfl rfl rfl
  exact ⟨h.1, h.2.1, h.2.2.1 0, h.2.2.2 0 "x"⟩

/-- C5: scrape reports success but `metadata.txt` is absent: the request
fails at once with the artifact-missing error; the answer collaborator is
never called and the repair loop is never entered. -/
theorem C5_metadata_missing_fatal (env : Env) (fields : List (String × String))
    (qt : Option String) (pr : ParseResp)
    (hform : env.form = Except.ok fields)
    (hsv : (saveLoop env fields none).1 = Except.ok qt)
    (hq : questionMissing qt = false)
    (hparse : env.parseLLM = Except.ok pr)
    (hsok : env.scrapeExec.code ≠ 0)
    (hmeta : env.metadataExists = false) :
    (analyze env).1
      = HResult.response 500
          (Body.errMsg ("Scraping code executed successfully, but failed to create metadata.txt at "
            ++ env.folder ++ "/metadata.txt.")) ∧
    Ev.answerFirstCall ∉ (analyze env).2 ∧
    (∀ j, Ev.answerExecCall j ∉ (analyze env).2) ∧
    (∀ k m, Ev.repairCall k m ∉ (analyze env).2) := by
  have hsf : scrapeFailed env.scrapeExec = false := by
    simp [scrapeFailed, hsok]
  rw [analyze_meta_missing env fields qt pr hform hsv hq hparse hsf hmeta]
  refine ⟨rfl, ?_, ?_, ?_⟩
  · simp [not_mem_saveLoop_answerFirst env fields none]
  · intro j
    simp [not_mem_saveLoop_exec env fields none j]
  · intro k m
    simp [not_mem_saveLoop_repair env fields none k m]

/-- Witness for C5 at a concrete request where `metadata.txt` is missing. -/
theorem C5_metadata_missing_fatal_witness :
    (analyze envNoMetadata).1
      = HResult.response 500
          (Body.errMsg ("Scraping code executed successfully, but failed to create metadata.txt at "
            ++ envNoMetadata.folder ++ "/metadata.txt.")) ∧
    Ev.answerFirstCall ∉ (analyze envNoMetadata).2 ∧
    Ev.answerExecCall 0 ∉ (analyze envNoMetadata).2 ∧
    Ev.repairCall 0 "x" ∉ (analyze envNoMetadata).2 := by
  have h := C5_metadata_missing_fatal envNoMetadata
    [("questions.txt", "What is 2+2?")] (some "What is 2+2?")
    ⟨"print(1)", [], "Q?"⟩ rfl rfl rfl rfl (by decide) rfl
  exact ⟨h.1, h.2.1, h.2.2.1 0, h.2.2.2 0 "x"⟩

/-- C6: when, after a failed attempt `k` with `k` before the last attempt,
the repair call itself raises, the request stops at once with a 500 carrying
that error; attempts `k+1`.. are never run (exactly `k+1` executions). -/
theorem C6_repair_error_aborts (env : Env) (fields : List (String × String))
    (qt : Option String) (pr : ParseResp) (ar : AnswerResp) (k : Nat) (e : String)
    (hform : env.form = Except.ok fields)
    (hsv : (saveLoop env fields none).1 = Except.ok qt)
    (hq : questionMissing qt = false)
    (hparse : env.parseLLM = Except.ok pr)
    (hsok : env.scrapeExec.code ≠ 0)
    (hmeta : env.metadataExists = true)
    (hans : env.answerFirst = Except.ok ar)
    (hk : k < MAX_ATTEMPTS - 1)
    (hfail : ∀ j ≤ k, (env.answerExec j).code ≠ 1)
    (hrep : ∀ j < k, ∃ a, env.repair j (retryMsg env j) = Except.ok a)
    (hre : env.repair k (retryMsg env k) = Except.error e) :
    (analyze env).1
      = HResult.response 500 (Body.errDetails "LLM could not fix the code." e) ∧
    execCount (analyze env).2 = k + 1 := by
  have hsf : scrapeFailed env.scrapeExec = false := by
    simp [scrapeFailed, hsok]
  rw [analyze_reach_loop env fields qt pr ar hform hsv hq hparse hsf hmeta hans]
  have hk2 : k < 2 := by
    simpa [MAX_ATTEMPTS] using hk
  interval_cases k
  · have h0 : answerSucceeded (env.answerExec 0) = false := by
      rw [answerSucceeded_false_iff]
      exact hfail 0 (by omega)
    have hl := loop_repairErr_at0 env e h0 hre
    rw [afterLoop, hl]
    refine ⟨rfl, ?_⟩
    simp [execCount, List.countP_append, List.countP_cons,
      saveLoop_countP_zero env fields none Ev.isAnswerExec (fun n => rfl),
      Ev.isAnswerExec]
  · have h0 : answerSucceeded (env.answerExec 0) = false := by
      rw [answerSucceeded_false_iff]
      exact hfail 0 (by omega)
    have h1 : answerSucceeded (env.answerExec 1) = false := by
      rw [answerSucceeded_false_iff]
      exact hfail 1 (by omega)
    obtain ⟨a0, hr0⟩ := hrep 0 (by omega)
    have hl := loop_repairErr_at1 env e a0 h0 h1 hr0 hre
    rw [afterLoop, hl]
    refine ⟨rfl, ?_⟩
    simp [execCount, List.countP_append, List.countP_cons,
      saveLoop_countP_zero env fields none Ev.isAnswerExec (fun n => rfl),
      Ev.isAnswerExec]

/-- Witness for C6 at a concrete request where attempt 0 fails and the
repair call raises. -/
theorem C6_repair_error_aborts_witness :
    (analyze envRepairRaises).1
      = HResult.response 500
          (Body.errDetails "LLM could not fix the code." "rate limited") ∧
    execCount (analyze envRepairRaises).2 = 1 := by
  have h := C6_repair_error_aborts envRepairRaises
    [("questions.txt", "What is 2+2?")] (some "What is 2+2?")
    ⟨"print(1)", [], "Q?"⟩ ⟨"print(2)", []⟩ 0 "rate limited"
    rfl rfl rfl rfl (by decide) rfl rfl (by simp [MAX_ATTEMPTS])
    (fun j hj => by interval_cases j; decide)
    (fun j hj => absurd hj (by omega)) rfl
  exact h

/-- C7: when all three answer attempts fail (with both repairs produced),
the response is a 500 whose details field is the full raw captured output of
attempt 3 — not the 100-token excerpt — and exactly 3 executions ran. -/
theorem C7_exhaustion_full_output (env : Env) (fields : List (String × String))
    (qt : Option String) (pr : ParseResp) (ar : AnswerResp)
    (hform : env.form = Except.ok fields)
    (hsv : (saveLoop env fields none).1 = Except.ok qt)
    (hq : questionMissing qt = false)
    (hparse : env.parseLLM = Except.ok pr)
    (hsok : env.scrapeExec.code ≠ 0)
    (hmeta : env.metadataExists = true)
    (hans : env.answerFirst = Except.ok ar)
    (hfail : ∀ j < MAX_ATTEMPTS, (env.answerExec j).code ≠ 1)
    (hrep0 : ∃ a, env.repair 0 (retryMsg env 0) = Except.ok a)
    (hrep1 : ∃ a, env.repair 1 (retryMsg env 1) = Except.ok a) :
    (analyze env).1
      = HResult.response 500
          (Body.errDetails "Failed to execute final answer code after retries."
            (env.answerExec 2).output) ∧
    execCount (analyze env).2 = MAX_ATTEMPTS := by
  obtain ⟨a0, hr0⟩ := hrep0
  obtain ⟨a1, hr1⟩ := hrep1
  have hsf : scrapeFailed env.scrapeExec = false := by
    simp [scrapeFailed, hsok]
  have h0 : answerSucceeded (env.answerExec 0) = false := by
    rw [answerSucceeded_false_iff]
    exact hfail 0 (by simp [MAX_ATTEMPTS])
  have h1 : answerSucceeded (env.answerExec 1) = false := by
    rw [answerSucceeded_false_iff]
    exact hfail 1 (by simp [MAX_ATTEMPTS])
  have h2 : answerSucceeded (env.answerExec 2) = false := by
    rw [answerSucceeded_false_iff]
    exact hfail 2 (by simp [MAX_ATTEMPTS])
  have hl := loop_exhausted env a0 a1 h0 h1 h2 hr0 hr1
  rw [analyze_reach_loop env fields qt pr ar hform hsv hq hparse hsf hmeta hans,
    afterLoop, hl]
  refine ⟨rfl, ?_⟩
  simp [execCount, List.countP_append, List.countP_cons,
    saveLoop_countP_zero env fields none Ev.isAnswerExec (fun n => rfl),
    Ev.isAnswerExec, MAX_ATTEMPTS]

/-- Witness for C7 at a concrete request whose three attempts all fail. -/
theorem C7_exhaustion_full_output_witness :
    (analyze envAllFail).1
      = HResult.response 500
          (Body.errDetails "Failed to execute final answer code after retries."
            (envAllFail.answerExec 2).output) ∧
    execCount (analyze envAllFail).2 = MAX_ATTEMPTS := by
  have h := C7_exhaustion_full_output envAllFail
    [("questions.txt", "What is 2+2?")] (some "What is 2+2?")
    ⟨"print(1)", [], "Q?"⟩ ⟨"print(2)", []⟩
    rfl rfl rfl rfl (by decide) rfl rfl
    (fun j hj => by
      have hj3 : j < 3 := by simpa [MAX_ATTEMPTS] using hj
      interval_cases j <;> decide)
    ⟨⟨"print(3)", []⟩, rfl⟩ ⟨⟨"print(3)", []⟩, rfl⟩
  exact h

/-- C8: once the repair loop reports success the orchestrator reads
`result.json` exactly once; a parse success yields the 200 response whose
body is the parsed content, a missing/unparsable file yields the terminal
result-read 500; and nothing — in particular no loop re-entry — follows the
read in the trace. -/
theorem C8_result_read_once (env : Env) (fields : List (String × String))
    (qt : Option String) (pr : ParseResp) (ar : AnswerResp) (n : Nat)
    (hform : env.form = Except.ok fields)
    (hsv : (saveLoop env fields none).1 = Except.ok qt)
    (hq : questionMissing qt = false)
    (hparse : env.parseLLM = Except.ok pr)
    (hsok : env.scrapeExec.code ≠ 0)
    (hmeta : env.metadataExists = true)
    (hans : env.answerFirst = Except.ok ar)
    (hloop : (answerLoop env).1 = LoopResult.success n) :
    readCount (analyze env).2 = 1 ∧
    (∀ d, env.readResult = Except.ok d →
      (analyze env).1 = HResult.response 200 (Body.payload d)) ∧
    (∀ e, env.readResult = Except.error e →
      (analyze env).1 = HResult.response 500
        (Body.errDetails "Could not read result file." e)) ∧
    (∀ pre post, (analyze env).2 = pre ++ Ev.resultRead :: post → post = []) := by
  have hsf : scrapeFailed env.scrapeExec = false := by
    simp [scrapeFailed, hsok]
  have hana := analyze_reach_loop env fields qt pr ar hform hsv hq hparse hsf
    hmeta hans
  have hloopz : (answerLoop env).2.countP (fun e => decide (e = Ev.resultRead)) = 0 :=
    List.countP_eq_zero.mpr fun e he => by
      rcases loop_events env e he with ⟨j, hj⟩ | ⟨j, m, hj⟩ <;> simp [hj]
  refine ⟨?_, ?_, ?_, fun pre post => analyze_read_last env pre post⟩
  · rw [hana, afterLoop, hloop]
    cases hrr : env.readResult with
    | ok d =>
      simp only [readCount, List.countP_append, hloopz,
        saveLoop_countP_zero env fields none
          (fun e => decide (e = Ev.resultRead)) (fun n' => rfl)]
      rfl
    | error e =>
      simp only [readCount, List.countP_append, hloopz,
        saveLoop_countP_zero env fields none
          (fun e => decide (e = Ev.resultRead)) (fun n' => rfl)]
      rfl
  · intro d hd
    rw [hana, afterLoop, hloop, hd]
  · intro e he
    rw [hana, afterLoop, hloop, he]

/-- Witness for C8 at a concrete fully successful request. -/
theorem C8_result_read_once_witness :
    readCount (analyze envBase).2 = 1 ∧
    (analyze envBase).1
      = HResult.response 200 (Body.payload "\x7b\"answer\": 4\x7d") := by
  have h := C8_result_read_once envBase
    [("questions.txt", "What is 2+2?")] (some "What is 2+2?")
    ⟨"print(1)", [], "Q?"⟩ ⟨"print(2)", []⟩ 0
    rfl rfl rfl rfl (by decide) rfl rfl rfl
  exact ⟨h.1, h.2.1 _ rfl⟩

/-- C9 counterexample: when form parsing raises, the exception leaves the
handler unhandled — it is not converted into a JSON error response. -/
theorem C9_counterexample :
    (analyze envFormRaises).1 = HResult.unhandled "connection reset" := rfl

/-- C9 (amended): failures in the collaborator calls (initial parse, first
answer call, repair calls) and in reading `result.json` are caught and turned
into JSON error responses — provided form parsing and the file writes
succeed, the handler always returns a response.  (Executor calls are total by
the Sandboxed Executor contract.)  Form-parsing and file-saving failures, by
contrast, propagate unhandled. -/
theorem C9_later_failures_caught (env : Env) (fields : List (String × String))
    (hform : env.form = Except.ok fields)
    (hsave : ∀ f ∈ fields, env.save f.1 = Except.ok ()) :
    ∃ s b, (analyze env).1 = HResult.response s b :=
  analyze_no_unhandled env fields hform hsave

/-- Witness for the amended C9 at a concrete well-formed request. -/
theorem C9_later_failures_caught_witness :
    ∃ s b, (analyze envBase).1 = HResult.response s b :=
  C9_later_failures_caught envBase [("questions.txt", "What is 2+2?")]
    rfl (fun f _ => rfl)

end DataAnalystPro
